import Mathlib

/-!
Shallow embedding of the Philadelphia multifamily property calculator
(`calculator.py`): the unit-mix parser, the schedule tables and their
year selectors, the amortizing-loan payment function, and the property
analysis orchestrator.  Money is modelled by `ℚ`; Python dictionaries by
association lists; Python `None`-able values by `Option`.
-/

namespace PhillyCalc

/-! ## Character and string helpers (Python `str.strip`, `str.upper`, `\s`) -/

/-- Python ASCII whitespace class `\s` = space, tab, newline, CR, VT, FF. -/
def isPyWS (c : Char) : Bool :=
  c = ' ' || c = '\t' || c = '\n' || c = '\r' || c = '\x0b' || c = '\x0c'

/-- Python `str.strip()` on a character list. -/
def stripList (l : List Char) : List Char :=
  ((l.dropWhile isPyWS).reverse.dropWhile isPyWS).reverse

/-- Python `str.upper()` (ASCII, which covers every input the parser sees). -/
def upperList (l : List Char) : List Char := l.map Char.toUpper

/-! ## The token splitter: `re.split(r"[,;\s]+AND\s+|[,;]", s)` -/

/-- The character class `[,;\s]`. -/
def isSepClass (c : Char) : Bool := c = ',' || c = ';' || isPyWS c

/-- Try to match the first alternative `[,;\s]+AND\s+` at the head of `l`;
return the length of the match.  The class run is maximal: `A` is not in
`[,;\s]`, so the regex engine cannot place `AND` earlier. -/
def matchSepA (l : List Char) : Option Nat :=
  let k := (l.takeWhile isSepClass).length
  if k = 0 then none
  else
    match l.drop k with
    | 'A' :: 'N' :: 'D' :: rest =>
        let m := (rest.takeWhile isPyWS).length
        if m = 0 then none else some (k + 3 + m)
    | _ => none

/-- Worker for `reSplit`; `fuel` bounds the recursion by the input length. -/
def reSplitGo : Nat → List Char → List Char → List (List Char)
  | 0, acc, _ => [acc.reverse]
  | _ + 1, acc, [] => [acc.reverse]
  | fuel + 1, acc, c :: rest =>
      match matchSepA (c :: rest) with
      | some n => acc.reverse :: reSplitGo fuel [] ((c :: rest).drop n)
      | none =>
          if c = ',' || c = ';' then acc.reverse :: reSplitGo fuel [] rest
          else reSplitGo fuel (c :: acc) rest

/-- `re.split(r"[,;\s]+AND\s+|[,;]", s)`: leftmost non-overlapping matches,
first alternative preferred. -/
def reSplit (l : List Char) : List (List Char) := reSplitGo (l.length + 1) [] l

/-! ## The token matcher: `re.match(r"(\d+)\s*[xX×]\s*(\d+)\s*BR", tok)` -/

/-- Decimal digit run to a number (regex `\d+` can never produce a sign). -/
def digitsToNat (ds : List Char) : Nat :=
  ds.foldl (fun acc c => acc * 10 + (c.toNat - 48)) 0

/-- Anchored match of `(\d+)\s*[xX×]\s*(\d+)\s*BR` at the head of `l`
(`re.match` does not require the match to reach the end of the string).
Greedy runs are exact here because no digit or whitespace character can
also begin the next regex piece. -/
def matchNxBR (l : List Char) : Option (Nat × Nat) :=
  let d1 := l.takeWhile Char.isDigit
  if d1.length = 0 then none
  else
    match (l.drop d1.length).dropWhile isPyWS with
    | x :: r2 =>
        if x = 'x' || x = 'X' || x = '×' then
          let r3 := r2.dropWhile isPyWS
          let d2 := r3.takeWhile Char.isDigit
          if d2.length = 0 then none
          else
            match (r3.drop d2.length).dropWhile isPyWS with
            | 'B' :: 'R' :: _ => some (digitsToNat d1, digitsToNat d2)
            | _ => none
        else none
    | [] => none

/-! ## `parse_unit_bedroom_counts` -/

/-- One entry of the parser output list `{'count': ..., 'bedrooms': ...}`. -/
structure ParsedUnit where
  count : Nat
  bedrooms : Nat
deriving DecidableEq, Repr

/-- A single-quote character, kept out of string literals. -/
def sq : String := String.singleton (Char.ofNat 39)

/-- `f"Could not parse '{pattern}'"`. -/
def couldNotParseMsg (tok : String) : String :=
  "Could not parse " ++ sq ++ tok ++ sq

/-- Fold step over the split tokens: strip, skip empties, match `NxBR`. -/
def parseStep (acc : List ParsedUnit × List String) (tokRaw : List Char) :
    List ParsedUnit × List String :=
  let tok := stripList tokRaw
  if tok = [] then acc
  else
    match matchNxBR tok with
    | some cb => (acc.1 ++ [⟨cb.1, cb.2⟩], acc.2)
    | none => (acc.1, acc.2 ++ [couldNotParseMsg (String.mk tok)])

/-- `parse_unit_bedroom_counts(unit_str)`: returns the parsed unit groups and
an optional error string (`"; "`-joined per-token failures). -/
def parse_unit_bedroom_counts (unit_str : String) :
    List ParsedUnit × Option String :=
  if unit_str = "" then ([], some "Invalid or empty unit string.")
  else
    let clean := upperList (stripList unit_str.data)
    let toks := reSplit clean
    let res := toks.foldl parseStep ([], [])
    if res.2 = [] then (res.1, none)
    else (res.1, some (String.intercalate "; " res.2))

/-! ## `calculate_loan_payment` -/

/-- `calculate_loan_payment(principal, annual_rate, term_years)`: level
monthly amortizing payment; 0 on non-positive principal or term, and a
straight line `principal / (term*12)` at zero rate. -/
def calculate_loan_payment (principal annual_rate : ℚ) (term_years : ℤ) : ℚ :=
  if principal ≤ 0 ∨ term_years ≤ 0 then 0
  else if annual_rate = 0 then principal / ((term_years : ℚ) * 12)
  else
    let monthly_rate := annual_rate / 100 / 12
    let num_payments := (term_years * 12).toNat
    principal * (monthly_rate * (1 + monthly_rate) ^ num_payments) /
      ((1 + monthly_rate) ^ num_payments - 1)

/-! ## Schedule tables (2024 and 2025 editions) -/

/-- Python `dict.get` on a string-keyed association list. -/
def dictGet {α : Type} (d : List (String × α)) (k : String) : Option α :=
  (d.find? (fun p => p.1 = k)).map (fun p => p.2)

/-- Python `dict.get` on a `Nat`-keyed association list. -/
def dictGetNat {α : Type} (d : List (Nat × α)) (k : Nat) : Option α :=
  (d.find? (fun p => p.1 = k)).map (fun p => p.2)

/-- `ZIP_TO_GROUP_MAPPING` (2024 edition, effective October 1, 2024). -/
def ZIP_TO_GROUP_MAPPING : List (String × Nat) :=
  [("19120", 1), ("19124", 1), ("19126", 1), ("19132", 1), ("19133", 1),
   ("19134", 1), ("19136", 1), ("19139", 1), ("19140", 1), ("19141", 1),
   ("19142", 1), ("19143", 1), ("19151", 1),
   ("19101", 2), ("19104", 2), ("19105", 2), ("19109", 2), ("19110", 2),
   ("19111", 2), ("19112", 2), ("19114", 2), ("19115", 2), ("19116", 2),
   ("19119", 2), ("19121", 2), ("19122", 2), ("19131", 2), ("19135", 2),
   ("19137", 2), ("19138", 2), ("19144", 2), ("19145", 2), ("19148", 2),
   ("19149", 2), ("19150", 2), ("19152", 2), ("19153", 2), ("19154", 2),
   ("19118", 3), ("19125", 3), ("19127", 3), ("19128", 3),
   ("19129", 3), ("19146", 3),
   ("19102", 4), ("19103", 4), ("19106", 4), ("19107", 4),
   ("19123", 4), ("19130", 4), ("19147", 4)]

/-- `PAYMENT_STANDARDS` (2024 edition): group → bedroom class → ceiling. -/
def PAYMENT_STANDARDS : List (Nat × List (String × Nat)) :=
  [(1, [("SRO", 847), ("0 BR", 1130), ("1 BR", 1240), ("2 BR", 1480),
        ("3 BR", 1780), ("4 BR", 2030), ("5 BR", 2334), ("6 BR", 2639),
        ("7 BR", 2943), ("8 BR", 3248)]),
   (2, [("SRO", 1042), ("0 BR", 1390), ("1 BR", 1540), ("2 BR", 1830),
        ("3 BR", 2200), ("4 BR", 2510), ("5 BR", 2886), ("6 BR", 3263),
        ("7 BR", 3639), ("8 BR", 4016)]),
   (3, [("SRO", 1342), ("0 BR", 1790), ("1 BR", 1970), ("2 BR", 2350),
        ("3 BR", 2830), ("4 BR", 3220), ("5 BR", 3703), ("6 BR", 4186),
        ("7 BR", 4669), ("8 BR", 5152)]),
   (4, [("SRO", 1522), ("0 BR", 2030), ("1 BR", 2270), ("2 BR", 2700),
        ("3 BR", 3250), ("4 BR", 3700), ("5 BR", 4255), ("6 BR", 4810),
        ("7 BR", 5365), ("8 BR", 5920)])]

/-- `GROUP_TO_RENT_TYPE` (2024 edition). -/
def GROUP_TO_RENT_TYPE : List (Nat × String) :=
  [(1, "Traditional Rents"), (2, "Mid Range Rents"),
   (3, "Opportunity Rents"), (4, "High Opportunity Rents")]

/-- `ZIP_TO_GROUP_MAPPING_2025` (2025 edition, effective November 1, 2025). -/
def ZIP_TO_GROUP_MAPPING_2025 : List (String × Nat) :=
  [("19124", 1), ("19132", 1), ("19133", 1), ("19141", 1),
   ("19111", 2), ("19115", 2), ("19116", 2), ("19119", 2),
   ("19120", 2), ("19121", 2), ("19122", 2), ("19126", 2),
   ("19134", 2), ("19135", 2), ("19136", 2), ("19137", 2),
   ("19138", 2), ("19139", 2), ("19140", 2), ("19142", 2),
   ("19143", 2), ("19144", 2), ("19150", 2), ("19151", 2),
   ("19152", 2),
   ("19101", 3), ("19104", 3), ("19105", 3), ("19109", 3),
   ("19110", 3), ("19112", 3), ("19114", 3), ("19129", 3),
   ("19131", 3), ("19145", 3), ("19148", 3), ("19149", 3),
   ("19153", 3), ("19154", 3),
   ("19118", 4), ("19123", 4), ("19125", 4), ("19127", 4),
   ("19128", 4), ("19146", 4),
   ("19102", 5), ("19103", 5), ("19106", 5), ("19107", 5),
   ("19130", 5), ("19147", 5)]

/-- `PAYMENT_STANDARDS_2025`: group → bedroom class → ceiling. -/
def PAYMENT_STANDARDS_2025 : List (Nat × List (String × Nat)) :=
  [(1, [("SRO", 825), ("0 BR", 1100), ("1 BR", 1190), ("2 BR", 1420),
        ("3 BR", 1700), ("4 BR", 1900), ("5 BR", 2185), ("6 BR", 2470),
        ("7 BR", 2755), ("8 BR", 3040)]),
   (2, [("SRO", 960), ("0 BR", 1280), ("1 BR", 1390), ("2 BR", 1660),
        ("3 BR", 1990), ("4 BR", 2220), ("5 BR", 2553), ("6 BR", 2886),
        ("7 BR", 3219), ("8 BR", 3552)]),
   (3, [("SRO", 1162), ("0 BR", 1550), ("1 BR", 1690), ("2 BR", 2010),
        ("3 BR", 2410), ("4 BR", 2690), ("5 BR", 3093), ("6 BR", 3497),
        ("7 BR", 3900), ("8 BR", 4304)]),
   (4, [("SRO", 1350), ("0 BR", 1800), ("1 BR", 1960), ("2 BR", 2330),
        ("3 BR", 2790), ("4 BR", 3120), ("5 BR", 3588), ("6 BR", 4056),
        ("7 BR", 4524), ("8 BR", 4992)]),
   (5, [("SRO", 1575), ("0 BR", 2100), ("1 BR", 2280), ("2 BR", 2720),
        ("3 BR", 3260), ("4 BR", 3640), ("5 BR", 4186), ("6 BR", 4732),
        ("7 BR", 5278), ("8 BR", 5824)])]

/-- `GROUP_TO_RENT_TYPE_2025`. -/
def GROUP_TO_RENT_TYPE_2025 : List (Nat × String) :=
  [(1, "Basic Rents"), (2, "Traditional Rents"), (3, "Mid Range Rents"),
   (4, "Opportunity Rents"), (5, "High Opportunity Rents")]

/-! ## Year selectors -/

/-- `get_payment_standards_for_year(year)`: `"2025"` selects the 2025 table,
anything else defaults to 2024. -/
def get_payment_standards_for_year (year : String) :
    List (Nat × List (String × Nat)) :=
  if year = "2025" then PAYMENT_STANDARDS_2025 else PAYMENT_STANDARDS

/-- `get_zip_mapping_for_year(year)`. -/
def get_zip_mapping_for_year (year : String) : List (String × Nat) :=
  if year = "2025" then ZIP_TO_GROUP_MAPPING_2025 else ZIP_TO_GROUP_MAPPING

/-- `get_group_to_rent_type_for_year(year)`. -/
def get_group_to_rent_type_for_year (year : String) : List (Nat × String) :=
  if year = "2025" then GROUP_TO_RENT_TYPE_2025 else GROUP_TO_RENT_TYPE

/-! ## Orchestrator data model -/

/-- A float that may hold `float('inf')` or `-float('inf')` sentinels. -/
inductive RatioValue where
  | finite (q : ℚ)
  | posInf
  | negInf
deriving DecidableEq, Repr

/-- The `input_params` dictionary consumed by `analyze_multifamily_property`;
`payment_year` is optional because the code reads it with
`input_params.get('payment_year', '2024')`. -/
structure InputParams where
  property_zip_code : String
  unit_bedroom_counts_str : String
  property_price : ℚ
  down_payment_percent : ℚ
  interest_rate : ℚ
  loan_term_years : ℤ
  annual_property_taxes : ℚ
  annual_home_insurance : ℚ
  vacancy_rate_percent : ℚ
  repairs_maintenance_percent : ℚ
  property_management_percent : ℚ
  other_opex_annual : ℚ
  payment_year : Option String
deriving DecidableEq

/-- One `unit_info` dictionary of the orchestrator's `units` list: the
`pha_rent` key is always present (the looked-up ceiling, or `0.0` on
failure), the `error` key only on a failed lookup. -/
structure UnitInfo where
  unit_number : Nat
  bedrooms : Nat
  bedrooms_str : String
  safmr_group : Nat
  rent_type : String
  pha_rent : ℚ
  error : Option String
deriving DecidableEq

/-- The financial fields of `property_summary`, present only when the
orchestrator reaches the financial-computation section. -/
structure FinancialSummary where
  total_units : Nat
  safmr_group : Nat
  rent_type : String
  payment_year : String
  total_potential_pha_rent_monthly : ℚ
  down_payment_amount : ℚ
  loan_amount : ℚ
  monthly_principal_interest : ℚ
  monthly_taxes : ℚ
  monthly_insurance : ℚ
  monthly_piti : ℚ
  monthly_maintenance : ℚ
  monthly_management_fee : ℚ
  monthly_debt_service : ℚ
  gross_potential_rent_annual : ℚ
  vacancy_allowance_annual : ℚ
  effective_gross_income_annual : ℚ
  repairs_allowance_annual : ℚ
  management_fee_annual : ℚ
  total_operating_expenses_annual : ℚ
  noi_annual : ℚ
  annual_debt_service : ℚ
  cash_flow_before_tax_annual : ℚ
  cash_flow_before_tax_monthly : ℚ
  cash_on_cash_return_percent : RatioValue
  cap_rate_percent : RatioValue
  grm : ℚ
  gross_revenue_5_years : ℚ
  noi_5_years : ℚ
deriving DecidableEq

/-- The `property_summary` dictionary: the optional `unit_errors` string,
the optional fatal `error` string, and the financial fields (absent on the
early-return error paths). -/
structure PropSummary where
  unit_errors : Option String
  error : Option String
  financials : Option FinancialSummary
deriving DecidableEq

/-- The orchestrator's return value: `{'units': [...], 'property_summary': {...}}`. -/
structure AnalysisResult where
  units : List UnitInfo
  property_summary : PropSummary
deriving DecidableEq

/-! ## Orchestrator -/

/-- `f"No PHA rent standard found for {bedrooms_str} in Group {safmr_group}"`. -/
def unitErrMsg (bstr : String) (grp : Nat) : String :=
  "No PHA rent standard found for " ++ bstr ++ " in Group " ++ toString grp

/-- One `unit_info` record as built in the per-unit loop. -/
def mkUnit (gps : List (String × Nat)) (grp : Nat) (rt : String)
    (bedrooms num : Nat) : UnitInfo :=
  let bstr := toString bedrooms ++ " BR"
  match dictGet gps bstr with
  | some r =>
      { unit_number := num, bedrooms := bedrooms, bedrooms_str := bstr,
        safmr_group := grp, rent_type := rt, pha_rent := (r : ℚ),
        error := none }
  | none =>
      { unit_number := num, bedrooms := bedrooms, bedrooms_str := bstr,
        safmr_group := grp, rent_type := rt, pha_rent := 0,
        error := some (unitErrMsg bstr grp) }

/-- The `for _ in range(count)` inner loop: `count` identical records with
consecutive unit numbers starting after `start`. -/
def mkUnitsForGroup (gps : List (String × Nat)) (grp : Nat) (rt : String)
    (count bedrooms start : Nat) : List UnitInfo :=
  (List.range count).map (fun i => mkUnit gps grp rt bedrooms (start + i + 1))

/-- Contribution of one parsed group to `total_monthly_rent`
(`count` additions of the same looked-up rent; 0 when the lookup fails). -/
def groupRentSum (gps : List (String × Nat)) (count bedrooms : Nat) : ℚ :=
  match dictGet gps (toString bedrooms ++ " BR") with
  | some r => (count : ℚ) * r
  | none => 0

/-- The outer `for unit_group in parsed_units` loop: returns the unit list,
the final `unit_number` counter, and `total_monthly_rent`. -/
def buildUnitsAux (gps : List (String × Nat)) (grp : Nat) (rt : String) :
    List ParsedUnit → Nat → ℚ → List UnitInfo × Nat × ℚ
  | [], start, total => ([], start, total)
  | g :: rest, start, total =>
      let us := mkUnitsForGroup gps grp rt g.count g.bedrooms start
      let res := buildUnitsAux gps grp rt rest (start + g.count)
        (total + groupRentSum gps g.count g.bedrooms)
      (us ++ res.1, res.2.1, res.2.2)

/-- Lines 419-506 of `calculator.py`: the financial section of the
summary, computed from the inputs and the accumulated rent total. -/
def computeFinancials (ip : InputParams) (payment_year : String)
    (safmr_group : Nat) (rent_type : String) (total_units : Nat)
    (total_monthly_rent : ℚ) : FinancialSummary :=
  let down_payment_amount := ip.property_price * (ip.down_payment_percent / 100)
  let loan_amount := ip.property_price - down_payment_amount
  let monthly_pi := calculate_loan_payment loan_amount ip.interest_rate ip.loan_term_years
  let monthly_taxes := ip.annual_property_taxes / 12
  let monthly_insurance := ip.annual_home_insurance / 12
  let monthly_piti := monthly_pi + monthly_taxes + monthly_insurance
  let gross_potential_rent_annual := total_monthly_rent * 12
  let vacancy_allowance_annual := gross_potential_rent_annual * (ip.vacancy_rate_percent / 100)
  let effective_gross_income_annual := gross_potential_rent_annual - vacancy_allowance_annual
  let repairs_allowance_annual := gross_potential_rent_annual * (ip.repairs_maintenance_percent / 100)
  let management_fee_annual := gross_potential_rent_annual * (ip.property_management_percent / 100)
  let total_operating_expenses_annual :=
    ip.annual_property_taxes + ip.annual_home_insurance +
      repairs_allowance_annual + management_fee_annual + ip.other_opex_annual
  let noi_annual := effective_gross_income_annual - total_operating_expenses_annual
  let annual_debt_service := monthly_pi * 12
  let cash_flow_before_tax_annual := noi_annual - annual_debt_service
  let total_cash_invested := down_payment_amount
  let cash_on_cash_return :=
    if total_cash_invested > 0 then
      RatioValue.finite ((cash_flow_before_tax_annual / total_cash_invested) * 100)
    else if cash_flow_before_tax_annual > 0 then RatioValue.posInf
    else RatioValue.negInf
  let cap_rate :=
    if ip.property_price > 0 then
      RatioValue.finite ((noi_annual / ip.property_price) * 100)
    else RatioValue.posInf
  let grm :=
    if gross_potential_rent_annual > 0 then
      ip.property_price / gross_potential_rent_annual
    else 0
  { total_units := total_units,
    safmr_group := safmr_group,
    rent_type := rent_type,
    payment_year := payment_year,
    total_potential_pha_rent_monthly := total_monthly_rent,
    down_payment_amount := down_payment_amount,
    loan_amount := loan_amount,
    monthly_principal_interest := monthly_pi,
    monthly_taxes := monthly_taxes,
    monthly_insurance := monthly_insurance,
    monthly_piti := monthly_piti,
    monthly_maintenance := repairs_allowance_annual / 12,
    monthly_management_fee := management_fee_annual / 12,
    monthly_debt_service := monthly_pi,
    gross_potential_rent_annual := gross_potential_rent_annual,
    vacancy_allowance_annual := vacancy_allowance_annual,
    effective_gross_income_annual := effective_gross_income_annual,
    repairs_allowance_annual := repairs_allowance_annual,
    management_fee_annual := management_fee_annual,
    total_operating_expenses_annual := total_operating_expenses_annual,
    noi_annual := noi_annual,
    annual_debt_service := annual_debt_service,
    cash_flow_before_tax_annual := cash_flow_before_tax_annual,
    cash_flow_before_tax_monthly := cash_flow_before_tax_annual / 12,
    cash_on_cash_return_percent := cash_on_cash_return,
    cap_rate_percent := cap_rate,
    grm := grm,
    gross_revenue_5_years := gross_potential_rent_annual * 5,
    noi_5_years := noi_annual * 5 }

/-- `analyze_multifamily_property(input_params)`: parse the unit mix,
resolve the ZIP group, build the per-unit list, and (unless an early
return fired) compute the financial summary. -/
def analyze_multifamily_property (ip : InputParams) : AnalysisResult :=
  let payment_year := ip.payment_year.getD "2024"
  let zip_mapping := get_zip_mapping_for_year payment_year
  let payment_standards := get_payment_standards_for_year payment_year
  let group_to_rent_type := get_group_to_rent_type_for_year payment_year
  let pr := parse_unit_bedroom_counts ip.unit_bedroom_counts_str
  if pr.1 = [] then
    { units := [],
      property_summary :=
        { unit_errors := pr.2,
          error := some "No valid units found to analyze.",
          financials := none } }
  else
    match dictGet zip_mapping ip.property_zip_code with
    | none =>
        { units := [],
          property_summary :=
            { unit_errors := pr.2,
              error := some ("ZIP code " ++ ip.property_zip_code ++
                " not found in " ++ payment_year ++ " payment standards."),
              financials := none } }
    | some safmr_group =>
        let rent_type := (dictGetNat group_to_rent_type safmr_group).getD "Unknown"
        let gps := (dictGetNat payment_standards safmr_group).getD []
        let bu := buildUnitsAux gps safmr_group rent_type pr.1 0 0
        { units := bu.1,
          property_summary :=
            { unit_errors := pr.2,
              error := none,
              financials := some (computeFinancials ip payment_year
                safmr_group rent_type bu.2.1 bu.2.2) } }

/-! ## Projections of the analysis result (for concrete evaluations) -/

/-- The `down_payment_amount` field of the summary, when present. -/
def dpOf (r : AnalysisResult) : Option ℚ :=
  r.property_summary.financials.map (fun f => f.down_payment_amount)

/-- The `cash_flow_before_tax_annual` field of the summary, when present. -/
def cfOf (r : AnalysisResult) : Option ℚ :=
  r.property_summary.financials.map (fun f => f.cash_flow_before_tax_annual)

/-- The `cash_on_cash_return_percent` field of the summary, when present. -/
def cocOf (r : AnalysisResult) : Option RatioValue :=
  r.property_summary.financials.map (fun f => f.cash_on_cash_return_percent)

/-- The `noi_annual` field of the summary, when present. -/
def noiOf (r : AnalysisResult) : Option ℚ :=
  r.property_summary.financials.map (fun f => f.noi_annual)

/-- The `cap_rate_percent` field of the summary, when present. -/
def capOf (r : AnalysisResult) : Option RatioValue :=
  r.property_summary.financials.map (fun f => f.cap_rate_percent)

/-- The `grm` field of the summary, when present. -/
def grmOf (r : AnalysisResult) : Option ℚ :=
  r.property_summary.financials.map (fun f => f.grm)

/-- The `gross_potential_rent_annual` field of the summary, when present. -/
def gprOf (r : AnalysisResult) : Option ℚ :=
  r.property_summary.financials.map (fun f => f.gross_potential_rent_annual)

/-! ## Concrete analysis inputs used in the concrete theorems -/

/-- One 1-BR unit in ZIP 19120 (2024 group 1, ceiling 1240), price 0, down
payment 0%, zero rate, and other operating expense exactly one year of rent,
so that the annual cash flow before tax is exactly 0. -/
def ipZeroDownZeroCF : InputParams :=
  { property_zip_code := "19120", unit_bedroom_counts_str := "1x1BR",
    property_price := 0, down_payment_percent := 0, interest_rate := 0,
    loan_term_years := 30, annual_property_taxes := 0,
    annual_home_insurance := 0, vacancy_rate_percent := 0,
    repairs_maintenance_percent := 0, property_management_percent := 0,
    other_opex_annual := 14880, payment_year := none }

/-- One 1-BR unit in ZIP 19120, price 100000, 100% down payment (loan 0),
all expense inputs 0: the end-to-end scenario with positive cash invested. -/
def ipFullDown : InputParams :=
  { property_zip_code := "19120", unit_bedroom_counts_str := "1x1BR",
    property_price := 100000, down_payment_percent := 100, interest_rate := 0,
    loan_term_years := 30, annual_property_taxes := 0,
    annual_home_insurance := 0, vacancy_rate_percent := 0,
    repairs_maintenance_percent := 0, property_management_percent := 0,
    other_opex_annual := 0, payment_year := none }

/-- A parseable unit mix (`"1x9BR"`) whose bedroom class has no ceiling cell
in group 1 of the 2024 table, so every unit fails rent resolution. -/
def ipAllUnresolved : InputParams :=
  { property_zip_code := "19120", unit_bedroom_counts_str := "1x9BR",
    property_price := 100000, down_payment_percent := 25, interest_rate := 0,
    loan_term_years := 30, annual_property_taxes := 0,
    annual_home_insurance := 0, vacancy_rate_percent := 0,
    repairs_maintenance_percent := 0, property_management_percent := 0,
    other_opex_annual := 0, payment_year := none }

/-- A down-payment percent of 150, outside [0,100]. -/
def ipDownPayment150 : InputParams :=
  { property_zip_code := "19120", unit_bedroom_counts_str := "1x1BR",
    property_price := 100000, down_payment_percent := 150, interest_rate := 0,
    loan_term_years := 30, annual_property_taxes := 0,
    annual_home_insurance := 0, vacancy_rate_percent := 0,
    repairs_maintenance_percent := 0, property_management_percent := 0,
    other_opex_annual := 0, payment_year := none }

/-- Price 0 with a strictly negative NOI (other operating expense exceeds
the annual rent of the single 1-BR unit). -/
def ipZeroPriceNegNOI : InputParams :=
  { property_zip_code := "19120", unit_bedroom_counts_str := "1x1BR",
    property_price := 0, down_payment_percent := 0, interest_rate := 0,
    loan_term_years := 30, annual_property_taxes := 0,
    annual_home_insurance := 0, vacancy_rate_percent := 0,
    repairs_maintenance_percent := 0, property_management_percent := 0,
    other_opex_annual := 20000, payment_year := none }

/-- Positive price with zero gross rent: the only parsed unit group is
`"1x9BR"`, which resolves no rent in group 1 of the 2024 table. -/
def ipZeroRentPosPrice : InputParams :=
  { property_zip_code := "19120", unit_bedroom_counts_str := "1x9BR",
    property_price := 100000, down_payment_percent := 100, interest_rate := 0,
    loan_term_years := 30, annual_property_taxes := 0,
    annual_home_insurance := 0, vacancy_rate_percent := 0,
    repairs_maintenance_percent := 0, property_management_percent := 0,
    other_opex_annual := 0, payment_year := none }

/-- A unit mix whose single token has count 0 (`"0x2BR"`). -/
def ipZeroCount : InputParams :=
  { property_zip_code := "19120", unit_bedroom_counts_str := "0x2BR",
    property_price := 100000, down_payment_percent := 25, interest_rate := 0,
    loan_term_years := 30, annual_property_taxes := 0,
    annual_home_insurance := 0, vacancy_rate_percent := 0,
    repairs_maintenance_percent := 0, property_management_percent := 0,
    other_opex_annual := 0, payment_year := none }

/-- The unit record produced for `ipFullDown` (and any other single-1-BR
19120 input): group 1, 2024 Traditional Rents, ceiling 1240, no error. -/
def uFullDown : UnitInfo :=
  { unit_number := 1, bedrooms := 1, bedrooms_str := "1 BR", safmr_group := 1,
    rent_type := "Traditional Rents", pha_rent := 1240, error := none }

/-- The financial summary produced for `ipFullDown`. -/
def fFullDown : FinancialSummary :=
  computeFinancials ipFullDown "2024" 1 "Traditional Rents" 1 1240

/-- The financial summary produced for `ipDownPayment150`. -/
def fDown150 : FinancialSummary :=
  computeFinancials ipDownPayment150 "2024" 1 "Traditional Rents" 1 1240

/-- The financial summary produced for `ipZeroPriceNegNOI`. -/
def fZeroPrice : FinancialSummary :=
  computeFinancials ipZeroPriceNegNOI "2024" 1 "Traditional Rents" 1 1240

/-- The financial summary produced for `ipZeroRentPosPrice`. -/
def fZeroRent : FinancialSummary :=
  computeFinancials ipZeroRentPosPrice "2024" 1 "Traditional Rents" 1 0

/-! ## General lemmas about the financial section -/

/-- The cash-on-cash branch of `computeFinancials`: a finite ratio when the
cash invested (= down payment) is positive, otherwise the sign of the cash
flow picks `+inf` or `-inf` (the `-inf` branch includes a zero cash flow). -/
theorem computeFinancials_coc (ip : InputParams) (py : String) (grp : Nat)
    (rt : String) (tu : Nat) (tr : ℚ) :
    (0 < (computeFinancials ip py grp rt tu tr).down_payment_amount →
      (computeFinancials ip py grp rt tu tr).cash_on_cash_return_percent =
        RatioValue.finite
          (((computeFinancials ip py grp rt tu tr).cash_flow_before_tax_annual /
              (computeFinancials ip py grp rt tu tr).down_payment_amount) * 100)) ∧
    ((computeFinancials ip py grp rt tu tr).down_payment_amount ≤ 0 →
      (0 < (computeFinancials ip py grp rt tu tr).cash_flow_before_tax_annual →
        (computeFinancials ip py grp rt tu tr).cash_on_cash_return_percent =
          RatioValue.posInf) ∧
      ((computeFinancials ip py grp rt tu tr).cash_flow_before_tax_annual ≤ 0 →
        (computeFinancials ip py grp rt tu tr).cash_on_cash_return_percent =
          RatioValue.negInf)) := by
  simp only [computeFinancials]
  constructor
  · intro h; rw [if_pos h]
  · intro h
    rw [if_neg (by linarith)]
    exact ⟨fun hcf => by rw [if_pos hcf], fun hcf => by rw [if_neg (by linarith)]⟩

/-- The down payment and loan amount computed by `computeFinancials` are the
raw formulas on the inputs, with no range restriction. -/
theorem computeFinancials_dp (ip : InputParams) (py : String) (grp : Nat)
    (rt : String) (tu : Nat) (tr : ℚ) :
    (computeFinancials ip py grp rt tu tr).down_payment_amount =
      ip.property_price * (ip.down_payment_percent / 100) ∧
    (computeFinancials ip py grp rt tu tr).loan_amount =
      ip.property_price - ip.property_price * (ip.down_payment_percent / 100) :=
  ⟨rfl, rfl⟩

/-- The cap-rate branch of `computeFinancials`: a finite ratio for a positive
price, and the `+inf` sentinel for any non-positive price. -/
theorem computeFinancials_cap (ip : InputParams) (py : String) (grp : Nat)
    (rt : String) (tu : Nat) (tr : ℚ) :
    (0 < ip.property_price →
      (computeFinancials ip py grp rt tu tr).cap_rate_percent =
        RatioValue.finite
          (((computeFinancials ip py grp rt tu tr).noi_annual /
              ip.property_price) * 100)) ∧
    (ip.property_price ≤ 0 →
      (computeFinancials ip py grp rt tu tr).cap_rate_percent =
        RatioValue.posInf) := by
  simp only [computeFinancials]
  exact ⟨fun h => by rw [if_pos h], fun h => by rw [if_neg (by linarith)]⟩

/-- The gross-rent-multiplier branch of `computeFinancials`: `price / gross`
for a positive annual gross rent, otherwise 0. -/
theorem computeFinancials_grm (ip : InputParams) (py : String) (grp : Nat)
    (rt : String) (tu : Nat) (tr : ℚ) :
    (0 < (computeFinancials ip py grp rt tu tr).gross_potential_rent_annual →
      (computeFinancials ip py grp rt tu tr).grm =
        ip.property_price /
          (computeFinancials ip py grp rt tu tr).gross_potential_rent_annual) ∧
    ((computeFinancials ip py grp rt tu tr).gross_potential_rent_annual ≤ 0 →
      (computeFinancials ip py grp rt tu tr).grm = 0) := by
  simp only [computeFinancials]
  exact ⟨fun h => by rw [if_pos h], fun h => by rw [if_neg (by linarith)]⟩

/-- Whenever the orchestrator emits a financial section, it is
`computeFinancials` applied to the inputs and the resolved data. -/
theorem analyze_financials_shape (ip : InputParams) (f : FinancialSummary)
    (h : (analyze_multifamily_property ip).property_summary.financials = some f) :
    ∃ py grp rt tu tr, f = computeFinancials ip py grp rt tu tr := by
  simp only [analyze_multifamily_property] at h
  split at h
  · simp at h
  · split at h
    · simp at h
    · simp at h
      exact ⟨_, _, _, _, _, h.symm⟩

/-- Every unit record built by the per-unit loop carries the resolved group
and is either a successful table lookup with its ceiling, or a failure tagged
with an error and the `0` rent sentinel, never a mix. -/
theorem buildUnitsAux_units (gps : List (String × Nat)) (grp : Nat)
    (rt : String) :
    ∀ (l : List ParsedUnit) (start : Nat) (total : ℚ) (u : UnitInfo),
      u ∈ (buildUnitsAux gps grp rt l start total).1 →
      u.safmr_group = grp ∧
      ((u.error = none ∧
          ∃ r, dictGet gps u.bedrooms_str = some r ∧ u.pha_rent = (r : ℚ)) ∨
        (u.error ≠ none ∧ dictGet gps u.bedrooms_str = none ∧
          u.pha_rent = 0)) := by
  intro l
  induction l with
  | nil => intro start total u hu; simp [buildUnitsAux] at hu
  | cons g rest ih =>
      intro start total u hu
      simp only [buildUnitsAux, List.mem_append] at hu
      cases hu with
      | inl h =>
          simp only [mkUnitsForGroup, List.mem_map] at h
          obtain ⟨i, _, hi⟩ := h
          subst hi
          cases hr : dictGet gps (toString g.bedrooms ++ " BR") with
          | none => simp [mkUnit, hr]
          | some r => simp [mkUnit, hr]
      | inr h => exact ih _ _ u h

/-! ## Claim C1: cash-on-cash return -/

/-- Claim C1, counterexample: with down payment exactly 0 and annual cash
flow before tax exactly 0 (`ipZeroDownZeroCF`), the code reports the
`-inf` sentinel for the cash-on-cash return, not the `exactly 0` the claim
requires. -/
theorem C1_counterexample :
    dpOf (analyze_multifamily_property ipZeroDownZeroCF) = some 0 ∧
    cfOf (analyze_multifamily_property ipZeroDownZeroCF) = some 0 ∧
    cocOf (analyze_multifamily_property ipZeroDownZeroCF) =
      some RatioValue.negInf := by
  refine ⟨?_, ?_, ?_⟩ <;> with_unfolding_all rfl

/-- Claim C1, amended: in every emitted financial summary the cash-on-cash
return is the finite ratio `(annual cash flow / down payment) × 100` when
the down payment is positive; when the down payment is ≤ 0 it is the `+inf`
sentinel for a positive annual cash flow and the `-inf` sentinel for a
zero or negative one (a zero cash flow yields `-inf`, not 0); no
computation fault is raised in any case. -/
theorem C1_coc_amended (ip : InputParams) (f : FinancialSummary)
    (h : (analyze_multifamily_property ip).property_summary.financials = some f) :
    (0 < f.down_payment_amount →
      f.cash_on_cash_return_percent =
        RatioValue.finite
          ((f.cash_flow_before_tax_annual / f.down_payment_amount) * 100)) ∧
    (f.down_payment_amount ≤ 0 →
      (0 < f.cash_flow_before_tax_annual →
        f.cash_on_cash_return_percent = RatioValue.posInf) ∧
      (f.cash_flow_before_tax_annual ≤ 0 →
        f.cash_on_cash_return_percent = RatioValue.negInf)) := by
  obtain ⟨py, grp, rt, tu, tr, rfl⟩ := analyze_financials_shape ip f h
  exact computeFinancials_coc ip py grp rt tu tr

/-- Claim C1, witness: `ipFullDown` (100% down on a 100000 price) has a
positive down payment and its cash-on-cash return is the finite ratio. -/
theorem C1_coc_witness :
    0 < fFullDown.down_payment_amount ∧
    fFullDown.cash_on_cash_return_percent =
      RatioValue.finite
        ((fFullDown.cash_flow_before_tax_annual /
            fFullDown.down_payment_amount) * 100) := by
  have hdp : fFullDown.down_payment_amount = 100000 := by
    with_unfolding_all rfl
  refine ⟨by rw [hdp]; norm_num, ?_⟩
  exact (C1_coc_amended ipFullDown fFullDown (by with_unfolding_all rfl)).1
    (by rw [hdp]; norm_num)

/-! ## Claim C2: zero valid units is not fatal -/

/-- Claim C2, counterexample: for `ipAllUnresolved` (parseable mix `1x9BR`
whose bedroom class has no ceiling cell in group 1), the single unit fails
resolution, yet no aggregate error is set and the financial section is
fully emitted — the claimed fatal zero-valid-units path does not exist. -/
theorem C2_counterexample :
    (analyze_multifamily_property ipAllUnresolved).units.length = 1 ∧
    ((analyze_multifamily_property ipAllUnresolved).units.all
      (fun u => u.error.isSome)) = true ∧
    (analyze_multifamily_property ipAllUnresolved).property_summary.error =
      none ∧
    ((analyze_multifamily_property ipAllUnresolved).property_summary.financials).isSome =
      true := by
  refine ⟨?_, ?_, ?_, ?_⟩ <;> with_unfolding_all rfl

/-- Claim C2, amended: the orchestrator result is fatal (no financial
section, and an aggregate error is set) exactly when parsing yields no unit
groups at all or the ZIP is absent from the selected edition's map; when
units parse but all fail rent resolution, the financial summary is still
computed (from a zero rent total) and no aggregate error is produced. -/
theorem C2_fatal_characterization (ip : InputParams) :
    ((analyze_multifamily_property ip).property_summary.financials = none ↔
      ((parse_unit_bedroom_counts ip.unit_bedroom_counts_str).1 = [] ∨
        dictGet (get_zip_mapping_for_year (ip.payment_year.getD "2024"))
          ip.property_zip_code = none)) ∧
    ((analyze_multifamily_property ip).property_summary.financials = none ↔
      (analyze_multifamily_property ip).property_summary.error ≠ none) := by
  simp only [analyze_multifamily_property]
  split
  next hp => simp [hp]
  next hp =>
    split
    next heq => simp [hp, heq]
    next grp heq => simp [hp, heq]

/-! ## Claim C3: down-payment percent is not validated -/

/-- Claim C3, counterexample: for `ipDownPayment150` (down-payment percent
150, outside [0,100]) no fatal input error is raised: the summary has no
error and carries financial fields, with a down payment of 150000 on a
100000 price. -/
theorem C3_counterexample :
    (analyze_multifamily_property ipDownPayment150).property_summary.error =
      none ∧
    dpOf (analyze_multifamily_property ipDownPayment150) = some 150000 := by
  refine ⟨?_, ?_⟩ <;> with_unfolding_all rfl

/-- Claim C3, amended: the orchestrator performs no range validation of the
down-payment percent; whatever its value, every emitted financial summary
uses it directly, with down payment = price × (percent / 100) and
loan = price − down payment. -/
theorem C3_no_validation (ip : InputParams) (f : FinancialSummary)
    (h : (analyze_multifamily_property ip).property_summary.financials = some f) :
    f.down_payment_amount =
      ip.property_price * (ip.down_payment_percent / 100) ∧
    f.loan_amount =
      ip.property_price -
        ip.property_price * (ip.down_payment_percent / 100) := by
  obtain ⟨py, grp, rt, tu, tr, rfl⟩ := analyze_financials_shape ip f h
  exact computeFinancials_dp ip py grp rt tu tr

/-- Claim C3, witness: the amended claim instantiated at `ipDownPayment150`. -/
theorem C3_witness :
    fDown150.down_payment_amount =
      ipDownPayment150.property_price *
        (ipDownPayment150.down_payment_percent / 100) ∧
    fDown150.loan_amount =
      ipDownPayment150.property_price -
        ipDownPayment150.property_price *
          (ipDownPayment150.down_payment_percent / 100) :=
  C3_no_validation ipDownPayment150 fDown150 (by with_unfolding_all rfl)

/-! ## Claim C4: cap rate at price 0 -/

/-- Claim C4, counterexample: for `ipZeroPriceNegNOI` (price 0, NOI equal
to −5120 < 0) the code reports the `+inf` sentinel, not the `-inf` the
claimed three-way sign policy requires. -/
theorem C4_counterexample :
    noiOf (analyze_multifamily_property ipZeroPriceNegNOI) = some (-5120) ∧
    capOf (analyze_multifamily_property ipZeroPriceNegNOI) =
      some RatioValue.posInf := by
  refine ⟨?_, ?_⟩ <;> with_unfolding_all rfl

/-- Claim C4, amended: in every emitted financial summary the cap rate is
the finite `(NOI / price) × 100` when the price is positive; when the price
is ≤ 0 it is the `+inf` sentinel unconditionally, regardless of the sign
of NOI. -/
theorem C4_cap_amended (ip : InputParams) (f : FinancialSummary)
    (h : (analyze_multifamily_property ip).property_summary.financials = some f) :
    (0 < ip.property_price →
      f.cap_rate_percent =
        RatioValue.finite ((f.noi_annual / ip.property_price) * 100)) ∧
    (ip.property_price ≤ 0 → f.cap_rate_percent = RatioValue.posInf) := by
  obtain ⟨py, grp, rt, tu, tr, rfl⟩ := analyze_financials_shape ip f h
  exact computeFinancials_cap ip py grp rt tu tr

/-- Claim C4, witness: the amended claim instantiated at
`ipZeroPriceNegNOI`, whose price is 0. -/
theorem C4_witness : fZeroPrice.cap_rate_percent = RatioValue.posInf :=
  (C4_cap_amended ipZeroPriceNegNOI fZeroPrice (by with_unfolding_all rfl)).2
    (le_of_eq (by with_unfolding_all rfl))

/-! ## Claim C5: gross rent multiplier at zero rent -/

/-- Claim C5, counterexample: for `ipZeroRentPosPrice` (price 100000 > 0,
zero annual gross rent because the only unit resolves no ceiling) the
multiplier is 0, not the `+inf` the claim requires for a positive price. -/
theorem C5_counterexample :
    ipZeroRentPosPrice.property_price = 100000 ∧
    gprOf (analyze_multifamily_property ipZeroRentPosPrice) = some 0 ∧
    grmOf (analyze_multifamily_property ipZeroRentPosPrice) = some 0 := by
  refine ⟨?_, ?_, ?_⟩ <;> with_unfolding_all rfl

/-- Claim C5, amended: in every emitted financial summary the gross rent
multiplier is `price / annual gross rent` when the annual gross rent is
positive, and 0 when the annual gross rent is ≤ 0, regardless of the
price. -/
theorem C5_grm_amended (ip : InputParams) (f : FinancialSummary)
    (h : (analyze_multifamily_property ip).property_summary.financials = some f) :
    (0 < f.gross_potential_rent_annual →
      f.grm = ip.property_price / f.gross_potential_rent_annual) ∧
    (f.gross_potential_rent_annual ≤ 0 → f.grm = 0) := by
  obtain ⟨py, grp, rt, tu, tr, rfl⟩ := analyze_financials_shape ip f h
  exact computeFinancials_grm ip py grp rt tu tr

/-- Claim C5, witness: the amended claim instantiated at
`ipZeroRentPosPrice`, whose annual gross rent is 0. -/
theorem C5_witness : fZeroRent.grm = 0 :=
  (C5_grm_amended ipZeroRentPosPrice fZeroRent (by with_unfolding_all rfl)).2
    (le_of_eq (by with_unfolding_all rfl))

/-! ## Claim C6: the monthly-payment function -/

/-- Claim C6, confirmed: `calculate_loan_payment` returns 0 when the
principal or the term is non-positive, returns exactly
`principal / (termYears*12)` at a zero rate, and otherwise returns the
standard level-payment amortization formula with monthly rate
`annualRatePercent/100/12` and `n = termYears*12`; in that branch the
denominator `(1+r)^n − 1` is proved nonzero, so the division is guarded
and the function never faults. -/
theorem C6_loan_payment (p r : ℚ) (t : ℤ) :
    (p ≤ 0 ∨ t ≤ 0 → calculate_loan_payment p r t = 0) ∧
    (0 < p → 0 < t → r = 0 →
      calculate_loan_payment p r t = p / ((t : ℚ) * 12)) ∧
    (0 < p → 0 < t → 0 < r →
      (1 + r / 100 / 12) ^ (t * 12).toNat - 1 ≠ 0 ∧
      calculate_loan_payment p r t =
        p * ((r / 100 / 12) * (1 + r / 100 / 12) ^ (t * 12).toNat) /
          ((1 + r / 100 / 12) ^ (t * 12).toNat - 1)) := by
  refine ⟨?_, ?_, ?_⟩
  · intro h
    unfold calculate_loan_payment
    rw [if_pos h]
  · intro hp ht hr
    unfold calculate_loan_payment
    rw [if_neg (by push_neg; exact ⟨hp, ht⟩), if_pos hr]
  · intro hp ht hr
    have hmr : 0 < r / 100 / 12 := by positivity
    have hn : (t * 12).toNat ≠ 0 := by
      have h12 : (12 : ℤ) ≤ t * 12 := by nlinarith
      omega
    have hpow : 1 < (1 + r / 100 / 12) ^ (t * 12).toNat :=
      one_lt_pow₀ (by linarith) hn
    refine ⟨ne_of_gt (sub_pos.mpr hpow), ?_⟩
    unfold calculate_loan_payment
    rw [if_neg (by push_neg; exact ⟨hp, ht⟩), if_neg (ne_of_gt hr)]

/-- Claim C6, witness: the spec's concrete cases — a zero-rate 30-year
200000 loan pays exactly `200000/360` per month, and a zero principal pays
0. -/
theorem C6_witness :
    calculate_loan_payment 200000 0 30 = 200000 / 360 ∧
    calculate_loan_payment 0 7 30 = 0 := by
  constructor
  · have h := (C6_loan_payment 200000 0 30).2.1 (by norm_num) (by norm_num) rfl
    rw [h]; norm_num
  · exact (C6_loan_payment 0 7 30).1 (Or.inl (by norm_num))

/-! ## Claim C7: parsing `"3xSRO"` -/

/-- Claim C7, counterexample: parsing `"3xSRO"` yields zero `UnitSpec`s,
not 3, and records a per-token failure: there is no SRO normalization in
the parser. -/
theorem C7_counterexample :
    (parse_unit_bedroom_counts "3xSRO").1.length = 0 ∧
    ((parse_unit_bedroom_counts "3xSRO").2).isSome = true := by
  decide

/-- Claim C7, amended: the parser accepts only numeric bedroom descriptors
matching `NxMBR`; `"3xSRO"` (uppercased to `3XSRO`) matches nothing, so
parsing yields no units and the recoverable per-token failure
`Could not parse ...`. -/
theorem C7_sro_amended :
    parse_unit_bedroom_counts "3xSRO" =
      ([], some (couldNotParseMsg "3XSRO")) := by
  decide

/-! ## Claim C8: zero and negative counts in `NxTYPE` tokens -/

/-- Claim C8, counterexample: the zero-count token `"0x2BR"` is not skipped
with a warning — it parses successfully into a count-0 entry and no warning
is recorded. -/
theorem C8_counterexample :
    (parse_unit_bedroom_counts "0x2BR").1 = [⟨0, 2⟩] ∧
    (parse_unit_bedroom_counts "0x2BR").2 = none := by
  decide

/-- Claim C8, amended: a negative-count token fails the `NxTYPE` pattern
and is a recoverable failure (skipped with a warning, parsing continues
with the remaining tokens), but a zero-count token parses successfully with
count 0 and no warning; downstream it expands to zero units while the
financial section is still computed. -/
theorem C8_count_amended :
    parse_unit_bedroom_counts "-3x2BR, 2x1BR" =
      ([⟨2, 1⟩], some (couldNotParseMsg "-3X2BR")) ∧
    parse_unit_bedroom_counts "0x2BR" = ([⟨0, 2⟩], none) ∧
    (analyze_multifamily_property ipZeroCount).units = [] ∧
    ((analyze_multifamily_property ipZeroCount).property_summary.financials).isSome =
      true := by
  refine ⟨by decide, by decide, ?_, ?_⟩ <;> with_unfolding_all rfl

/-! ## Claim C9: unit records are resolved xor failed -/

/-- Claim C9, confirmed: every unit record in the orchestrator's output
carries either a successful rent resolution (no error, and its `pha_rent`
is the ceiling found in the resolved group's table for its bedroom class)
or a failure reason (an error, a failed table lookup, and the `0` rent
placeholder) — never both at once. -/
theorem C9_unit_exclusive (ip : InputParams) (u : UnitInfo)
    (hu : u ∈ (analyze_multifamily_property ip).units) :
    (u.error = none ∧
      ∃ r, dictGet ((dictGetNat
            (get_payment_standards_for_year (ip.payment_year.getD "2024"))
            u.safmr_group).getD []) u.bedrooms_str = some r ∧
        u.pha_rent = (r : ℚ)) ∨
    (u.error ≠ none ∧
      dictGet ((dictGetNat
          (get_payment_standards_for_year (ip.payment_year.getD "2024"))
          u.safmr_group).getD []) u.bedrooms_str = none ∧
      u.pha_rent = 0) := by
  simp only [analyze_multifamily_property] at hu
  split at hu
  · simp at hu
  · split at hu
    · simp at hu
    next grp heq =>
      simp only [] at hu
      have h := buildUnitsAux_units _ grp _ _ _ _ u hu
      rw [h.1]
      exact h.2

/-- Claim C9, witness: the single successfully resolved unit of
`ipFullDown` falls in the no-error branch with its table ceiling 1240. -/
theorem C9_witness :
    (uFullDown.error = none ∧
      ∃ r, dictGet ((dictGetNat
            (get_payment_standards_for_year
              (ipFullDown.payment_year.getD "2024"))
            uFullDown.safmr_group).getD []) uFullDown.bedrooms_str = some r ∧
        uFullDown.pha_rent = (r : ℚ)) ∨
    (uFullDown.error ≠ none ∧
      dictGet ((dictGetNat
          (get_payment_standards_for_year
            (ipFullDown.payment_year.getD "2024"))
          uFullDown.safmr_group).getD []) uFullDown.bedrooms_str = none ∧
      uFullDown.pha_rent = 0) :=
  C9_unit_exclusive ipFullDown uFullDown (by
    rw [show (analyze_multifamily_property ipFullDown).units = [uFullDown]
      from by with_unfolding_all rfl]
    exact List.mem_singleton.mpr rfl)

/-! ## Claim C10: edition fallback -/

/-- Claim C10, confirmed: for every edition selector other than the exact
string `"2025"`, all three schedule lookups return the 2024 edition's
tables, and a missing selector defaults to `"2024"`, which also selects
the 2024 tables; no selector value is ever rejected. -/
theorem C10_edition_fallback (y : String) (h : y ≠ "2025") :
    get_payment_standards_for_year y = PAYMENT_STANDARDS ∧
    get_zip_mapping_for_year y = ZIP_TO_GROUP_MAPPING ∧
    get_group_to_rent_type_for_year y = GROUP_TO_RENT_TYPE ∧
    get_payment_standards_for_year
        ((none : Option String).getD "2024") = PAYMENT_STANDARDS ∧
    get_zip_mapping_for_year
        ((none : Option String).getD "2024") = ZIP_TO_GROUP_MAPPING ∧
    get_group_to_rent_type_for_year
        ((none : Option String).getD "2024") = GROUP_TO_RENT_TYPE := by
  refine ⟨?_, ?_, ?_, ?_, ?_, ?_⟩ <;>
    simp [get_payment_standards_for_year, get_zip_mapping_for_year,
      get_group_to_rent_type_for_year, h]

/-- Claim C10, witness: the unrecognized selector `"1999"` silently selects
the 2024 tables. -/
theorem C10_witness :
    get_payment_standards_for_year "1999" = PAYMENT_STANDARDS ∧
    get_zip_mapping_for_year "1999" = ZIP_TO_GROUP_MAPPING ∧
    get_group_to_rent_type_for_year "1999" = GROUP_TO_RENT_TYPE ∧
    get_payment_standards_for_year
        ((none : Option String).getD "2024") = PAYMENT_STANDARDS ∧
    get_zip_mapping_for_year
        ((none : Option String).getD "2024") = ZIP_TO_GROUP_MAPPING ∧
    get_group_to_rent_type_for_year
        ((none : Option String).getD "2024") = GROUP_TO_RENT_TYPE :=
  C10_edition_fallback "1999" (by decide)

end PhillyCalc
